import Mathlib

/-!
Shallow embedding of `src/packages/i18next/src/integration.ts`
(`createI18nextIntegration` from the withease i18next integration).

The integration wires effector stores, events and effects around an external
i18next engine instance.  We embed it as an explicit state machine:

* `State` holds the values of the reactive stores created by the integration
  (`$instance`, `$stanaloneT`, `$isReady`, `$contextChangeListener`,
  `$missingKeyListener`), the in-flight `initInstanceFx` calls (the effect
  handler is `async`, so its completion is a separate scheduler step), the
  listener registrations currently attached to engine instances (the
  "world"), and observation logs: every `off` call made, every `init()` call
  made, and every report published on `reporting.missingKey`.
* `step` applies one external stimulus or scheduler step, performing the full
  synchronous effector propagation pass it triggers (the `sample` wirings of
  the source, lines 79-94 and 198-221).

Translate functions (`TFunction`) are modelled as genuine Lean functions
`String → Option VarMap → String`; an engine instance carries its `t`
function (`Inst.tfun`, standing for `i18next.t.bind(i18next)`) plus a
numeric reference identity `iid` used for listener registration, and its
`isInitialized` flag.  Listener callbacks are identified by the numeric id
allocated when they are created (reference identity of the closures in the
source).
-/

/-- Variables object passed to a translate function (`Record<string,string>`
after the stores are resolved by `combine`). -/
def VarMap : Type := List (String × String)

/-- A translate function: `t(key, variables?)`.  `none` for the variables
argument models a call `t(key)` with the argument omitted. -/
def TFunction : Type := String → Option VarMap → String

/-- Source line 36: `const identity = ((key: string) => key) as TFunction`.
It ignores the variables argument and returns the key unchanged. -/
def identityT : TFunction := fun key _ => key

/-- An i18next engine instance as seen by the integration: a reference
identity, the `isInitialized` flag, and its `t` method. -/
structure Inst where
  iid : Nat
  isInitialized : Bool
  tfun : TFunction

/-- Payload of `reporting.missingKey` (type `MissinKeyReport` in the source):
languages, namespace, key and resolved fallback. -/
structure MissinKeyReport where
  lngs : List String
  nspace : String
  key : String
  res : String
deriving DecidableEq

/-- The three native listener channels the integration attaches to:
`i18next.on('missingKey', …)`, `i18next.on('languageChanged', …)` and
`i18next.store.on('added', …)`. -/
inductive Channel where
  | missingKey
  | languageChanged
  | storeAdded
deriving DecidableEq

/-- One `off` call performed by `destroyListenersFx`: which channel, on which
instance (by reference id), detaching which listener (by reference id). -/
structure OffCall where
  channel : Channel
  iid : Nat
  listener : Nat
deriving DecidableEq

/-- Listener registrations currently attached to engine instances, per
channel, as `(instance id, listener id)` pairs in attachment order. -/
structure EngineWorld where
  missingKeyListeners : List (Nat × Nat)
  languageChangedListeners : List (Nat × Nat)
  storeAddedListeners : List (Nat × Nat)
deriving DecidableEq

/-- An in-flight `initInstanceFx` call that went past the null check: the
instance captured from the `attach` source at call time and the missing-key
listener already attached by the synchronous prefix of the handler.  The
handler is `async`, so its result (`doneData`) is delivered by a later
`resolveInit` step whether or not `init()` was actually awaited. -/
structure PendingInit where
  inst : Inst
  mkListener : Nat

/-- The whole reactive state of one `createI18nextIntegration` call, plus the
engine world and the observation logs. -/
structure State where
  /-- `$instance` (source lines 52-54): current instance or null. -/
  instStore : Option Inst
  /-- `$stanaloneT` (source line 63): standalone translate function or null. -/
  stanaloneT : Option TFunction
  /-- `$isReady` (source line 68). -/
  isReady : Bool
  /-- `$contextChangeListener` (source line 156): recorded unsubscribe
  identity for the context-change listener, or null. -/
  contextChangeListener : Option Nat
  /-- `$missingKeyListener` (source line 160). -/
  missingKeyListener : Option Nat
  /-- In-flight `initInstanceFx` calls awaiting resolution. -/
  pendingInits : List PendingInit
  /-- Listener registrations on the engine instances. -/
  world : EngineWorld
  /-- Log of every report published on `reporting.missingKey`. -/
  reports : List MissinKeyReport
  /-- Log of every `off` call performed by `destroyListenersFx`. -/
  offLog : List OffCall
  /-- Instance ids on which `i18next.init()` was invoked, in order. -/
  initCalls : List Nat
  /-- Fresh listener-id supply (models reference identity of closures). -/
  nextListenerId : Nat

/-- Store `$derivedT` (source lines 60-62): `$instance.map(i => i ? i.t.bind(i) :
null)`.  A derived store, recomputed from the current instance on read. -/
def derivedT (s : State) : Option TFunction :=
  s.instStore.map (fun i18next => i18next.tfun)

/-- The combine callback of `$t` (source lines 70-73):
`({derived, standalone}) => standalone ?? derived ?? identity`. -/
def tCombine (derived standalone : Option TFunction) : TFunction :=
  standalone.getD (derived.getD identityT)

/-- Store `$t` (source lines 70-73): the public translate-function store, a pure
combination of `$derivedT` and `$stanaloneT`. -/
def publicT (s : State) : TFunction :=
  tCombine (derivedT s) s.stanaloneT

/-- Key builder of `translatedLiteral` (source lines 104-111): for each
literal part push the part and then the interpolated value at the same
index, with a missing value (`dynamicParts[i]` past the end) resolving to
the empty string; join everything. -/
def buildKey : List String → List String → String
  | [], _ => ""
  | part :: parts, [] => part ++ "" ++ buildKey parts []
  | part :: parts, v :: vs => part ++ v ++ buildKey parts vs

/-- Function `translatedLiteral` (source lines 96-116) as a function of the current
`$t` value and the current values of the interpolated stores: it calls
`t(finalKey)` with the variables argument omitted. -/
def translatedLiteral (t : TFunction) (parts : List String)
    (dynamicParts : List String) : String :=
  t (buildKey parts dynamicParts) none

/-- Function `translatedWithVariables` (source lines 118-126) as a function of the
current `$t` value and the resolved current values of the variable stores:
`t(key, variables)` (with `variables ?? {}`, so the map is always passed). -/
def translatedWithVariables (t : TFunction) (key : String)
    (vars : VarMap) : String :=
  t key (some vars)

/-- The key-form `translated` reactive value read against integration state
`s`: it uses the current value of `$t`. -/
def translatedKeyForm (s : State) (key : String) (vars : VarMap) :
    String :=
  translatedWithVariables (publicT s) key vars

/-- The template-form `translated` reactive value read against integration
state `s`. -/
def translatedTemplateForm (s : State) (parts : List String)
    (dynamicParts : List String) : String :=
  translatedLiteral (publicT s) parts dynamicParts

/-- Calling `initInstanceFx` (source lines 130-154).  The `attach` source is
`$instance`, read at call time.  On a null instance the handler returns null
immediately; that `doneData` is filtered out by `filter: Boolean` (lines
199-204, 211-216), so the null path changes nothing.  On a non-null instance
the synchronous prefix of the async handler runs now: it creates a fresh
missing-key listener closure, attaches it with
`i18next.on('missingKey', …)` BEFORE the `isInitialized` check, and, when
the instance is not initialized, invokes `i18next.init()`.  Either way the
handler's completion is asynchronous: a `PendingInit` is recorded and
delivered by a later `resolveInit` step. -/
def callInitInstanceFx (s : State) : State :=
  match s.instStore with
  | none => s
  | some i18next =>
    let l := s.nextListenerId
    let s1 : State :=
      { s with
        nextListenerId := l + 1
        world :=
          { s.world with
            missingKeyListeners :=
              s.world.missingKeyListeners ++ [(i18next.iid, l)] }
        pendingInits := s.pendingInits ++ [⟨i18next, l⟩] }
    if i18next.isInitialized then s1
    else { s1 with initCalls := s1.initCalls ++ [i18next.iid] }

/-- Effect of the `instanceInitialized` event (source lines 79-92): rebinds
`$stanaloneT` to `i18next.t.bind(i18next)` and sets `$isReady` to true. -/
def applyInstanceInitialized (i18next : Inst) (s : State) : State :=
  { s with stanaloneT := some i18next.tfun, isReady := true }

/-- Calling `setupListenersFx` (source lines 164-174): creates a fresh
context-change listener closure, attaches it with
`i18next.on('languageChanged', …)` and `i18next.store.on('added', …)`.  The
handler is synchronous, so its `doneData` fires in the same pass and the
`sample` at lines 206-210 stores the listener in `$contextChangeListener`. -/
def callSetupListenersFx (i18next : Inst) (s : State) : State :=
  let c := s.nextListenerId
  { s with
    nextListenerId := c + 1
    world :=
      { s.world with
        languageChangedListeners :=
          s.world.languageChangedListeners ++ [(i18next.iid, c)]
        storeAddedListeners :=
          s.world.storeAddedListeners ++ [(i18next.iid, c)] }
    contextChangeListener := some c }

/-- Resolution of an in-flight `initInstanceFx` call: its promise settles and
`doneData` fires with the non-null result object holding the instance and the
missing-key listener.  The `filter: Boolean` passes, so (source lines 199-216) `instanceInitialized`
fires, `setupListenersFx` is called, and `$missingKeyListener` is set.  An
index not naming a pending call is a no-op step. -/
def resolveInit (idx : Nat) (s : State) : State :=
  match s.pendingInits.get? idx with
  | none => s
  | some p =>
    let s1 : State := { s with pendingInits := s.pendingInits.eraseIdx idx }
    let s2 := applyInstanceInitialized p.inst s1
    let s3 := callSetupListenersFx p.inst s2
    { s3 with missingKeyListener := some p.mkListener }

/-- Calling `destroyListenersFx` (source lines 176-196).  Its `attach` source
reads the CURRENT values of `$contextChangeListener`, `$missingKeyListener`
and `$instance` at call time.  Null instance: early return.  Otherwise each
recorded listener is detached from the current instance (two `off` calls for
the context-change listener, one for the missing-key listener).  The handler
is synchronous, so `destroyListenersFx.done` fires in the same pass and the
`sample` at lines 218-221 reinits both listener stores to null - in every
completion path, including the null-instance early return. -/
def callDestroyListenersFx (s : State) : State :=
  let detached : State :=
    match s.instStore with
    | none => s
    | some i18next =>
      let s1 : State :=
        match s.contextChangeListener with
        | none => s
        | some c =>
          { s with
            world :=
              { s.world with
                languageChangedListeners :=
                  s.world.languageChangedListeners.filter
                    (fun p => p ≠ (i18next.iid, c))
                storeAddedListeners :=
                  s.world.storeAddedListeners.filter
                    (fun p => p ≠ (i18next.iid, c)) }
            offLog :=
              s.offLog ++
                [⟨Channel.languageChanged, i18next.iid, c⟩,
                 ⟨Channel.storeAdded, i18next.iid, c⟩] }
      match s.missingKeyListener with
      | none => s1
      | some l =>
        { s1 with
          world :=
            { s1.world with
              missingKeyListeners :=
                s1.world.missingKeyListeners.filter
                  (fun p => p ≠ (i18next.iid, l)) }
          offLog := s1.offLog ++ [⟨Channel.missingKey, i18next.iid, l⟩] }
  { detached with contextChangeListener := none, missingKeyListener := none }

/-- Effect of one firing of the internal `contextChanged` event (source
lines 79-86): sampled against the current `$instance` with
`filter: Boolean`; when an instance is present, `$stanaloneT` is rebound to
its `t`. -/
def fireContextChanged (s : State) : State :=
  match s.instStore with
  | none => s
  | some i18next => { s with stanaloneT := some i18next.tfun }

/-- External stimuli and scheduler steps driving the integration. -/
inductive Ev where
  /-- The caller fires `setup`. -/
  | setup
  /-- The caller fires `teardown` (the `destroy` event). -/
  | teardown
  /-- The caller updates the `$instance` store to a new value (an
  `$instance.updates` firing). -/
  | setInstance (v : Option Inst)
  /-- The promise of the in-flight `initInstanceFx` call at the given index
  settles. -/
  | resolveInit (idx : Nat)
  /-- The engine instance with id `iid` natively emits `missingKey` with the
  given payload: every listener attached on that channel is called. -/
  | emitMissingKey (iid : Nat) (r : MissinKeyReport)
  /-- The engine instance with id `iid` natively emits `languageChanged`. -/
  | emitLanguageChanged (iid : Nat)
  /-- The resource store of the engine instance with id `iid` natively emits
  `added`. -/
  | emitStoreAdded (iid : Nat)

/-- One step of the integration: the stimulus plus the full synchronous
effector propagation pass it triggers.

* `setup` and `$instance.updates` both target `initInstanceFx` (line 198).
* `teardown` sets `$isReady` to false (line 94) and calls
  `destroyListenersFx` (line 217).
* A native `missingKey` emission calls every attached missing-key listener,
  each publishing one report through the scope-bound
  `reporting.missingKey` (lines 138-145).
* A native `languageChanged` or `added` emission calls every attached
  context-change listener, each firing `contextChanged` (lines 166-170). -/
def step : Ev → State → State
  | Ev.setup, s => callInitInstanceFx s
  | Ev.teardown, s => callDestroyListenersFx { s with isReady := false }
  | Ev.setInstance v, s => callInitInstanceFx { s with instStore := v }
  | Ev.resolveInit idx, s => resolveInit idx s
  | Ev.emitMissingKey iid r, s =>
    let n :=
      (s.world.missingKeyListeners.filter (fun p => p.1 = iid)).length
    { s with reports := s.reports ++ List.replicate n r }
  | Ev.emitLanguageChanged iid, s =>
    let n :=
      (s.world.languageChangedListeners.filter (fun p => p.1 = iid)).length
    fireContextChanged^[n] s
  | Ev.emitStoreAdded iid, s =>
    let n :=
      (s.world.storeAddedListeners.filter (fun p => p.1 = iid)).length
    fireContextChanged^[n] s

/-- Run a sequence of steps from left to right. -/
def run (evs : List Ev) (s : State) : State :=
  evs.foldl (fun st e => step e st) s

/-- The state right after `createI18nextIntegration` returns, before any
event fires: `$instance` holds the caller-supplied instance or store value
(`inst0`), `$stanaloneT` is null, `$isReady` is false, both listener stores
are null, nothing is pending, attached or logged. -/
def mkInit (inst0 : Option Inst) : State :=
  { instStore := inst0
    stanaloneT := none
    isReady := false
    contextChangeListener := none
    missingKeyListener := none
    pendingInits := []
    world := ⟨[], [], []⟩
    reports := []
    offLog := []
    initCalls := []
    nextListenerId := 0 }

/-- Events that can write `$stanaloneT`: init completion (`resolveInit`) and
the context-change rebind firings. -/
def isStanaloneSetter : Ev → Bool
  | Ev.resolveInit _ => true
  | Ev.emitLanguageChanged _ => true
  | Ev.emitStoreAdded _ => true
  | _ => false

/-- A concrete engine instance whose translate function marks its output, to
make the standalone binding observable. -/
def cInst : Inst :=
  ⟨7, true, fun key _ => "STANDALONE:" ++ key⟩

/-- A concrete already-initialized instance (id 1) for scenario witnesses. -/
def instA : Inst :=
  ⟨1, true, fun key _ => "A:" ++ key⟩

/-- A second concrete already-initialized instance (id 2). -/
def instB : Inst :=
  ⟨2, true, fun key _ => "B:" ++ key⟩

/-- A concrete not-yet-initialized instance (id 3). -/
def instU : Inst :=
  ⟨3, false, fun key _ => "U:" ++ key⟩

/-- A concrete missing-key report. -/
def sampleReport : MissinKeyReport :=
  ⟨["en"], "common", "greeting", "greeting"⟩

/-- A concrete already-initialized instance (id 4) whose translate function
serializes its first variable, making the variables argument observable. -/
def recInst : Inst :=
  ⟨4, true, fun key vars =>
    key ++ "/" ++
      (match vars with
       | some ((n, v) :: _) => n ++ "=" ++ v
       | _ => "")⟩

theorem callInitInstanceFx_isReady (s : State) :
    (callInitInstanceFx s).isReady = s.isReady := by
  unfold callInitInstanceFx
  cases s.instStore with
  | none => rfl
  | some i => dsimp only; split <;> rfl

theorem callInitInstanceFx_stanaloneT (s : State) :
    (callInitInstanceFx s).stanaloneT = s.stanaloneT := by
  unfold callInitInstanceFx
  cases s.instStore with
  | none => rfl
  | some i => dsimp only; split <;> rfl

theorem callInitInstanceFx_offLog (s : State) :
    (callInitInstanceFx s).offLog = s.offLog := by
  unfold callInitInstanceFx
  cases s.instStore with
  | none => rfl
  | some i => dsimp only; split <;> rfl

theorem fireContextChanged_isReady (s : State) :
    (fireContextChanged s).isReady = s.isReady := by
  unfold fireContextChanged
  cases s.instStore <;> rfl

theorem iterate_fireContextChanged_isReady (n : Nat) (s : State) :
    (fireContextChanged^[n] s).isReady = s.isReady := by
  induction n generalizing s with
  | zero => rfl
  | succ n ih =>
    rw [Function.iterate_succ_apply]
    rw [ih, fireContextChanged_isReady]

theorem callDestroyListenersFx_isReady (s : State) :
    (callDestroyListenersFx s).isReady = s.isReady := by
  unfold callDestroyListenersFx
  cases s.instStore with
  | none => rfl
  | some i =>
    dsimp only
    cases s.contextChangeListener <;> cases s.missingKeyListener <;> rfl

theorem callDestroyListenersFx_stanaloneT (s : State) :
    (callDestroyListenersFx s).stanaloneT = s.stanaloneT := by
  unfold callDestroyListenersFx
  cases s.instStore with
  | none => rfl
  | some i =>
    dsimp only
    cases s.contextChangeListener <;> cases s.missingKeyListener <;> rfl

/-- C1: for every sequence of instance-store updates and lifecycle events,
the public translate-function store `$t` always holds the function
`standalone ?? derived ?? identity`; in the state before `setup` fires and
before any instance is resolved it is the identity function, so
`translate("x")` returns `"x"`. -/
theorem C1_public_t_total_and_identity_fallback :
    (∀ (inst0 : Option Inst) (evs : List Ev),
      publicT (run evs (mkInit inst0)) =
        ((run evs (mkInit inst0)).stanaloneT).getD
          ((derivedT (run evs (mkInit inst0))).getD identityT)) ∧
    publicT (mkInit none) "x" none = "x" ∧
    translatedKeyForm (mkInit none) "x" [] = "x" ∧
    translatedTemplateForm (mkInit none) ["x"] [] = "x" := by
  refine ⟨fun inst0 evs => rfl, rfl, rfl, by decide⟩

/-- C2: after `setup` fires with a non-null instance whose `isInitialized`
flag is true, `$isReady` becomes true (once the effect's promise settles)
and `init()` is never invoked. -/
theorem C2_ready_without_init (i : Inst) (h : i.isInitialized = true) :
    (run [Ev.setup, Ev.resolveInit 0] (mkInit (some i))).isReady = true ∧
    (run [Ev.setup, Ev.resolveInit 0] (mkInit (some i))).initCalls = [] := by
  simp [run, step, callInitInstanceFx, mkInit, resolveInit, h,
    applyInstanceInitialized, callSetupListenersFx]

theorem C2_witness :
    (run [Ev.setup, Ev.resolveInit 0] (mkInit (some instA))).isReady = true ∧
    (run [Ev.setup, Ev.resolveInit 0] (mkInit (some instA))).initCalls = [] :=
  C2_ready_without_init instA rfl

/-- C3: after `setup` fires with a non-null instance whose `isInitialized`
flag is false, `init()` is invoked, `$isReady` stays false throughout the
pending period (only the resolution of a pending `initInstanceFx` call can
flip it to true), and it becomes true once the init resolution is
delivered. -/
theorem C3_ready_only_after_init (i : Inst) (h : i.isInitialized = false) :
    (run [Ev.setup] (mkInit (some i))).isReady = false ∧
    (run [Ev.setup] (mkInit (some i))).initCalls = [i.iid] ∧
    (run [Ev.setup, Ev.resolveInit 0] (mkInit (some i))).isReady = true ∧
    (∀ (s : State) (e : Ev), s.isReady = false → (step e s).isReady = true →
      ∃ idx, (s.pendingInits.get? idx).isSome ∧ e = Ev.resolveInit idx) := by
  refine ⟨?_, ?_, ?_, ?_⟩
  · simp [run, step, callInitInstanceFx, mkInit, h]
  · simp [run, step, callInitInstanceFx, mkInit, h]
  · simp [run, step, callInitInstanceFx, mkInit, h, resolveInit,
      applyInstanceInitialized, callSetupListenersFx]
  · intro s e h1 h2
    cases e with
    | setup =>
      rw [show step Ev.setup s = callInitInstanceFx s from rfl,
        callInitInstanceFx_isReady] at h2
      exact absurd (h1 ▸ h2) (by simp)
    | teardown =>
      rw [show step Ev.teardown s =
          callDestroyListenersFx { s with isReady := false } from rfl,
        callDestroyListenersFx_isReady] at h2
      exact absurd h2 (by simp)
    | setInstance v =>
      rw [show step (Ev.setInstance v) s =
          callInitInstanceFx { s with instStore := v } from rfl,
        callInitInstanceFx_isReady] at h2
      exact absurd (h1 ▸ h2) (by simp)
    | resolveInit idx =>
      refine ⟨idx, ?_, rfl⟩
      cases hp : s.pendingInits.get? idx with
      | none =>
        rw [show step (Ev.resolveInit idx) s = resolveInit idx s from rfl] at h2
        unfold resolveInit at h2
        rw [hp] at h2
        exact absurd (h1 ▸ h2) (by simp)
      | some p => simp
    | emitMissingKey iid r =>
      exact absurd (h1 ▸ h2) (by simp)
    | emitLanguageChanged iid =>
      rw [show step (Ev.emitLanguageChanged iid) s =
          fireContextChanged^[(s.world.languageChangedListeners.filter
            (fun p => p.1 = iid)).length] s from rfl,
        iterate_fireContextChanged_isReady] at h2
      exact absurd (h1 ▸ h2) (by simp)
    | emitStoreAdded iid =>
      rw [show step (Ev.emitStoreAdded iid) s =
          fireContextChanged^[(s.world.storeAddedListeners.filter
            (fun p => p.1 = iid)).length] s from rfl,
        iterate_fireContextChanged_isReady] at h2
      exact absurd (h1 ▸ h2) (by simp)

theorem C3_witness :
    (run [Ev.setup] (mkInit (some instU))).isReady = false ∧
    (run [Ev.setup] (mkInit (some instU))).initCalls = [3] ∧
    (run [Ev.setup, Ev.resolveInit 0] (mkInit (some instU))).isReady = true ∧
    (∃ idx,
      ((run [Ev.setup] (mkInit (some instU))).pendingInits.get? idx).isSome ∧
      Ev.resolveInit 0 = Ev.resolveInit idx) := by
  obtain ⟨a, b, c, d⟩ := C3_ready_only_after_init instU rfl
  exact ⟨a, b, c,
    d (run [Ev.setup] (mkInit (some instU))) (Ev.resolveInit 0) a c⟩

/-- C4: firing `teardown` after readiness is true sets `$isReady` to false
and performs exactly one detach call per previously attached listener
registration (context-change on both channels, and missing-key), emptying
the engine world; both listener-handle stores are reset to null, so a second
consecutive `teardown` performs no additional detach calls (in general, a
`teardown` with both listener stores null adds nothing to the off log). -/
theorem C4_teardown_detaches_once :
    (run [Ev.setup, Ev.resolveInit 0] (mkInit (some instA))).isReady = true ∧
    (run [Ev.setup, Ev.resolveInit 0, Ev.teardown]
      (mkInit (some instA))).isReady = false ∧
    (run [Ev.setup, Ev.resolveInit 0, Ev.teardown]
      (mkInit (some instA))).offLog =
      [⟨Channel.languageChanged, 1, 1⟩, ⟨Channel.storeAdded, 1, 1⟩,
       ⟨Channel.missingKey, 1, 0⟩] ∧
    (run [Ev.setup, Ev.resolveInit 0, Ev.teardown]
      (mkInit (some instA))).world = ⟨[], [], []⟩ ∧
    (run [Ev.setup, Ev.resolveInit 0, Ev.teardown]
      (mkInit (some instA))).contextChangeListener = none ∧
    (run [Ev.setup, Ev.resolveInit 0, Ev.teardown]
      (mkInit (some instA))).missingKeyListener = none ∧
    (run [Ev.setup, Ev.resolveInit 0, Ev.teardown, Ev.teardown]
      (mkInit (some instA))).offLog =
      (run [Ev.setup, Ev.resolveInit 0, Ev.teardown]
        (mkInit (some instA))).offLog ∧
    (∀ s : State, s.contextChangeListener = none →
      s.missingKeyListener = none →
      (step Ev.teardown s).offLog = s.offLog) := by
  refine ⟨by decide, by decide, by decide, by decide, by decide, by decide,
    by decide, ?_⟩
  intro s h1 h2
  rw [show step Ev.teardown s =
    callDestroyListenersFx { s with isReady := false } from rfl]
  unfold callDestroyListenersFx
  cases hi : s.instStore with
  | none => simp [hi]
  | some i => simp [hi, h1, h2]

theorem C4_witness :
    (step Ev.teardown (mkInit (some instA))).offLog =
      (mkInit (some instA)).offLog := by
  obtain ⟨-, -, -, -, -, -, -, d⟩ := C4_teardown_detaches_once
  exact d (mkInit (some instA)) rfl rfl

/-- C5: the missing-key listener is attached before initialization is
checked or started, so a native `missingKey` notification emitted strictly
before the init resolution is delivered is published as exactly one report
on `reporting.missingKey`, and the later init resolution adds no duplicate. -/
theorem C5_missing_key_during_init (i : Inst) (r : MissinKeyReport) :
    (run [Ev.setup, Ev.emitMissingKey i.iid r]
      (mkInit (some i))).reports = [r] ∧
    (run [Ev.setup, Ev.emitMissingKey i.iid r, Ev.resolveInit 0]
      (mkInit (some i))).reports = [r] := by
  cases h : i.isInitialized <;>
    simp [run, step, callInitInstanceFx, mkInit, h, resolveInit,
      applyInstanceInitialized, callSetupListenersFx]

/-- C6 counterexample: run `setup`, let init resolve, fire `teardown`, then
clear the instance store.  Contrary to the claim, `$stanaloneT` is NOT reset
to null by `teardown`: it still holds the standalone binding, and the public
translate function still uses it (it returns "STANDALONE:x", not "x"). -/
theorem C6_counterexample :
    (run [Ev.setup, Ev.resolveInit 0, Ev.teardown, Ev.setInstance none]
      (mkInit (some cInst))).stanaloneT.isSome = true ∧
    publicT (run [Ev.setup, Ev.resolveInit 0, Ev.teardown, Ev.setInstance none]
      (mkInit (some cInst))) "x" none = "STANDALONE:x" := by
  exact ⟨rfl, by decide⟩

/-- C6 amended: the standalone translate-function store is written only by
the init-completion and context-change rebind steps; firing `teardown` does
NOT reset it to null - it leaves `$stanaloneT` unchanged, so after teardown
the public function may keep using the stale standalone binding. -/
theorem C6_stanalone_setters :
    (∀ s : State, (step Ev.teardown s).stanaloneT = s.stanaloneT) ∧
    (∀ (s : State) (e : Ev), isStanaloneSetter e = false →
      (step e s).stanaloneT = s.stanaloneT) := by
  constructor
  · intro s
    rw [show step Ev.teardown s =
      callDestroyListenersFx { s with isReady := false } from rfl,
      callDestroyListenersFx_stanaloneT]
  · intro s e h
    cases e with
    | setup => exact callInitInstanceFx_stanaloneT s
    | teardown =>
      rw [show step Ev.teardown s =
        callDestroyListenersFx { s with isReady := false } from rfl,
        callDestroyListenersFx_stanaloneT]
    | setInstance v => exact callInitInstanceFx_stanaloneT _
    | resolveInit idx => exact absurd h (by simp [isStanaloneSetter])
    | emitMissingKey iid r => rfl
    | emitLanguageChanged iid => exact absurd h (by simp [isStanaloneSetter])
    | emitStoreAdded iid => exact absurd h (by simp [isStanaloneSetter])

theorem C6_witness :
    (step Ev.teardown (mkInit (some cInst))).stanaloneT =
      (mkInit (some cInst)).stanaloneT ∧
    (step Ev.setup (mkInit (some cInst))).stanaloneT =
      (mkInit (some cInst)).stanaloneT :=
  ⟨C6_stanalone_setters.1 (mkInit (some cInst)),
   C6_stanalone_setters.2 (mkInit (some cInst)) Ev.setup rfl⟩

/-- C7: template-form translation concatenates each literal part with the
current resolved value of the interpolated store in the same position (a
missing interpolation resolving to the empty string), and passes the
resulting key to the current translate function; with parts
["Hello, ", "!"] and store value "World" the key is "Hello, World!", and
after the store updates to "Team" the key recomputes to "Hello, Team!" and
the translated value recomputes through the engine's t. -/
theorem C7_template_form :
    buildKey ["Hello, ", "!"] ["World"] = "Hello, World!" ∧
    buildKey ["Hello, ", "!"] ["Team"] = "Hello, Team!" ∧
    buildKey ["Hello, ", "!"] [] = "Hello, !" ∧
    (∀ t : TFunction,
      translatedLiteral t ["Hello, ", "!"] ["World"] =
        t "Hello, World!" none) ∧
    (∀ t : TFunction,
      translatedLiteral t ["Hello, ", "!"] ["Team"] =
        t "Hello, Team!" none) ∧
    translatedTemplateForm (run [Ev.setup, Ev.resolveInit 0]
      (mkInit (some instA))) ["Hello, ", "!"] ["World"] = "A:Hello, World!" ∧
    translatedTemplateForm (run [Ev.setup, Ev.resolveInit 0]
      (mkInit (some instA))) ["Hello, ", "!"] ["Team"] = "A:Hello, Team!" := by
  refine ⟨by decide, by decide, by decide, fun t => ?_, fun t => ?_,
    by decide, by decide⟩
  · show t (buildKey ["Hello, ", "!"] ["World"]) none = t "Hello, World!" none
    rw [show buildKey ["Hello, ", "!"] ["World"] = "Hello, World!" by decide]
  · show t (buildKey ["Hello, ", "!"] ["Team"]) none = t "Hello, Team!" none
    rw [show buildKey ["Hello, ", "!"] ["Team"] = "Hello, Team!" by decide]

/-- C8: key-form translation with variables invokes the current translate
function with the key and the mapping of each variable name to its current
resolved store value; with the name store holding "Ann" the engine's t
receives ("greeting", name = "Ann"), and after the store updates to "Ben"
the value recomputes with name = "Ben". -/
theorem C8_key_form_with_variables :
    (∀ t : TFunction,
      translatedWithVariables t "greeting" [("name", "Ann")] =
        t "greeting" (some [("name", "Ann")])) ∧
    (∀ t : TFunction,
      translatedWithVariables t "greeting" [("name", "Ben")] =
        t "greeting" (some [("name", "Ben")])) ∧
    (∀ s : State,
      translatedKeyForm s "greeting" [("name", "Ann")] =
        publicT s "greeting" (some [("name", "Ann")])) ∧
    translatedKeyForm (run [Ev.setup, Ev.resolveInit 0]
      (mkInit (some recInst))) "greeting" [("name", "Ann")] =
      "greeting/name=Ann" ∧
    translatedKeyForm (run [Ev.setup, Ev.resolveInit 0]
      (mkInit (some recInst))) "greeting" [("name", "Ben")] =
      "greeting/name=Ben" :=
  ⟨fun t => rfl, fun t => rfl, fun s => rfl, by decide, by decide⟩

/-- C9 counterexample: start with instance A (id 1), let it initialize, then
switch the instance store to instance B (id 2).  Contrary to the claim, no
listener attached to A is detached by the switch (zero off calls; A's
missing-key and context-change registrations are still attached), and a
subsequent teardown detaches only from the CURRENT instance B, leaving A's
listeners attached forever. -/
theorem C9_counterexample :
    (run [Ev.setup, Ev.resolveInit 0, Ev.setInstance (some instB)]
      (mkInit (some instA))).offLog = [] ∧
    (run [Ev.setup, Ev.resolveInit 0, Ev.setInstance (some instB)]
      (mkInit (some instA))).world.missingKeyListeners = [(1, 0), (2, 2)] ∧
    (run [Ev.setup, Ev.resolveInit 0, Ev.setInstance (some instB)]
      (mkInit (some instA))).world.languageChangedListeners = [(1, 1)] ∧
    (run [Ev.setup, Ev.resolveInit 0, Ev.setInstance (some instB),
      Ev.resolveInit 0, Ev.teardown] (mkInit (some instA))).offLog =
      [⟨Channel.languageChanged, 2, 3⟩, ⟨Channel.storeAdded, 2, 3⟩,
       ⟨Channel.missingKey, 2, 2⟩] ∧
    (run [Ev.setup, Ev.resolveInit 0, Ev.setInstance (some instB),
      Ev.resolveInit 0, Ev.teardown]
      (mkInit (some instA))).world.missingKeyListeners = [(1, 0)] ∧
    (run [Ev.setup, Ev.resolveInit 0, Ev.setInstance (some instB),
      Ev.resolveInit 0, Ev.teardown]
      (mkInit (some instA))).world.languageChangedListeners = [(1, 1)] := by
  refine ⟨by decide, by decide, by decide, by decide, by decide, by decide⟩

/-- C9 amended: updating the instance store performs no detach calls at all
(listeners bound to the previous instance stay attached), and the detach
calls performed by `teardown` are keyed by whatever instance is current at
detachment time: every off call it appends targets the current instance's
reference id. -/
theorem C9_detach_uses_current_instance :
    (∀ (s : State) (v : Option Inst),
      (step (Ev.setInstance v) s).offLog = s.offLog) ∧
    (∀ (s : State) (i : Inst), s.instStore = some i →
      ∀ c ∈ (step Ev.teardown s).offLog, c ∈ s.offLog ∨ c.iid = i.iid) := by
  constructor
  · intro s v
    exact callInitInstanceFx_offLog _
  · intro s i hi c hc
    rw [show step Ev.teardown s =
      callDestroyListenersFx { s with isReady := false } from rfl] at hc
    unfold callDestroyListenersFx at hc
    simp only [hi] at hc
    cases hcc : s.contextChangeListener <;> cases hmk : s.missingKeyListener <;>
      simp only [hcc, hmk, List.mem_append, List.mem_cons, List.mem_singleton,
        List.not_mem_nil, or_false] at hc
    · exact Or.inl hc
    · rcases hc with hc | hc
      · exact Or.inl hc
      · exact Or.inr (by rw [hc])
    · rcases hc with hc | hc | hc
      · exact Or.inl hc
      · exact Or.inr (by rw [hc])
      · exact Or.inr (by rw [hc])
    · rcases hc with (hc | hc | hc) | hc
      · exact Or.inl hc
      · exact Or.inr (by rw [hc])
      · exact Or.inr (by rw [hc])
      · exact Or.inr (by rw [hc])

theorem C9_witness :
    (step (Ev.setInstance none) (mkInit (some instA))).offLog =
      (mkInit (some instA)).offLog ∧
    ((⟨Channel.languageChanged, 1, 1⟩ : OffCall) ∈
        (run [Ev.setup, Ev.resolveInit 0] (mkInit (some instA))).offLog ∨
      (⟨Channel.languageChanged, 1, 1⟩ : OffCall).iid = instA.iid) :=
  ⟨C9_detach_uses_current_instance.1 (mkInit (some instA)) none,
   C9_detach_uses_current_instance.2
     (run [Ev.setup, Ev.resolveInit 0] (mkInit (some instA))) instA rfl
     ⟨Channel.languageChanged, 1, 1⟩ (by decide)⟩

/-- C10: updating the instance store to null after readiness has become true
leaves `$isReady` true and performs no detach calls (the null-instance path
of `initInstanceFx` is filtered out and changes nothing); in general,
setting the instance store to null preserves readiness, the off log, the
published reports and the attached listeners, and the only event that can
take `$isReady` from true to false is `teardown`. -/
theorem C10_null_instance_frame (i : Inst) :
    (run [Ev.setup, Ev.resolveInit 0] (mkInit (some i))).isReady = true ∧
    (run [Ev.setup, Ev.resolveInit 0, Ev.setInstance none]
      (mkInit (some i))).isReady = true ∧
    (∀ s : State,
      (step (Ev.setInstance none) s).isReady = s.isReady ∧
      (step (Ev.setInstance none) s).offLog = s.offLog ∧
      (step (Ev.setInstance none) s).reports = s.reports ∧
      (step (Ev.setInstance none) s).world = s.world) ∧
    (∀ (s : State) (e : Ev), s.isReady = true → (step e s).isReady = false →
      e = Ev.teardown) := by
  have hready :
      (run [Ev.setup, Ev.resolveInit 0] (mkInit (some i))).isReady = true := by
    cases h : i.isInitialized <;>
      simp [run, step, callInitInstanceFx, mkInit, h, resolveInit,
        applyInstanceInitialized, callSetupListenersFx]
  refine ⟨hready, ?_, fun s => ⟨rfl, rfl, rfl, rfl⟩, ?_⟩
  · show (step (Ev.setInstance none)
      (run [Ev.setup, Ev.resolveInit 0] (mkInit (some i)))).isReady = true
    exact hready
  · intro s e h1 h2
    cases e with
    | setup =>
      rw [show step Ev.setup s = callInitInstanceFx s from rfl,
        callInitInstanceFx_isReady] at h2
      exact absurd (h1 ▸ h2) (by simp)
    | teardown => rfl
    | setInstance v =>
      rw [show step (Ev.setInstance v) s =
          callInitInstanceFx { s with instStore := v } from rfl,
        callInitInstanceFx_isReady] at h2
      exact absurd (h1 ▸ h2) (by simp)
    | resolveInit idx =>
      cases hp : s.pendingInits.get? idx with
      | none =>
        rw [show step (Ev.resolveInit idx) s = resolveInit idx s from rfl] at h2
        unfold resolveInit at h2
        rw [hp] at h2
        exact absurd (h1 ▸ h2) (by simp)
      | some p =>
        rw [show step (Ev.resolveInit idx) s = resolveInit idx s from rfl] at h2
        unfold resolveInit at h2
        rw [hp] at h2
        exact absurd h2 (by simp [applyInstanceInitialized,
          callSetupListenersFx])
    | emitMissingKey iid r =>
      exact absurd (h1 ▸ h2) (by simp)
    | emitLanguageChanged iid =>
      rw [show step (Ev.emitLanguageChanged iid) s =
          fireContextChanged^[(s.world.languageChangedListeners.filter
            (fun p => p.1 = iid)).length] s from rfl,
        iterate_fireContextChanged_isReady] at h2
      exact absurd (h1 ▸ h2) (by simp)
    | emitStoreAdded iid =>
      rw [show step (Ev.emitStoreAdded iid) s =
          fireContextChanged^[(s.world.storeAddedListeners.filter
            (fun p => p.1 = iid)).length] s from rfl,
        iterate_fireContextChanged_isReady] at h2
      exact absurd (h1 ▸ h2) (by simp)

theorem C10_witness :
    (run [Ev.setup, Ev.resolveInit 0] (mkInit (some instA))).isReady = true ∧
    (run [Ev.setup, Ev.resolveInit 0, Ev.setInstance none]
      (mkInit (some instA))).isReady = true ∧
    (step (Ev.setInstance none)
      (run [Ev.setup, Ev.resolveInit 0] (mkInit (some instA)))).offLog =
      (run [Ev.setup, Ev.resolveInit 0] (mkInit (some instA))).offLog ∧
    Ev.teardown = Ev.teardown := by
  obtain ⟨a, b, c, d⟩ := C10_null_instance_frame instA
  exact ⟨a, b, (c (run [Ev.setup, Ev.resolveInit 0]
      (mkInit (some instA)))).2.1,
    d (run [Ev.setup, Ev.resolveInit 0, Ev.setInstance none]
        (mkInit (some instA))) Ev.teardown b (by decide)⟩
